import Mathlib

/-!
Shallow embedding of the request-dispatch pipeline of the repository
(`core/handlers/base.py` and `core/handlers/exception.py`).

Python exceptions are modelled by the `Exc` inductive; a Python call that can
raise is a Lean function returning `Except Exc _`.  In-place mutation of the
request (`request._mark_post_parse_error()`) is modelled by threading the
`Request` value.  Logging calls and signal sends, as well as the dispatch
engine's invocations of hooks, are recorded in an explicit `List Entry` trace.
Mode adaptation (`sync_to_async` / `async_to_sync`) only changes scheduling,
which this embedding erases; the adapted callable computes the same value, so
`adapt_method_mode` is the identity on behaviour and only its *mode decisions*
(which are data) are modelled, in `load_middleware`.
-/

/-- Subkinds of `SuspiciousOperation`.  The first three are the body/field/file
limit variants (`RequestDataTooBig`, `TooManyFieldsSent`, `TooManyFilesSent`);
`otherSub name` stands for any other subclass, carrying its class name. -/
inductive SuspiciousSub where
  | requestDataTooBig
  | tooManyFieldsSent
  | tooManyFilesSent
  | otherSub (name : String)
deriving DecidableEq, Repr

/-- Python class name of a `SuspiciousOperation` subkind
(`exc.__class__.__name__`). -/
def SuspiciousSub.className : SuspiciousSub → String
  | .requestDataTooBig => "RequestDataTooBig"
  | .tooManyFieldsSent => "TooManyFieldsSent"
  | .tooManyFilesSent => "TooManyFilesSent"
  | .otherSub n => n

/-- Whether the subkind is one of the body/field/file limit variants, i.e.
`isinstance(exc, (RequestDataTooBig, TooManyFieldsSent, TooManyFilesSent))`. -/
def SuspiciousSub.isBodyLimit : SuspiciousSub → Bool
  | .requestDataTooBig => true
  | .tooManyFieldsSent => true
  | .tooManyFilesSent => true
  | .otherSub _ => false

/-- The exception kinds distinguished by the pipeline.  Constructors carry the
exception message where the code uses `str(exc)`. -/
inductive Exc where
  | http404
  | permissionDenied
  | multiPartParserError
  | badRequest (msg : String)
  | suspiciousOperation (sub : SuspiciousSub) (msg : String)
  | valueError (msg : String)
  | runtimeError (msg : String)
  | improperlyConfigured (msg : String)
  | other (msg : String)
deriving DecidableEq, Repr

/-- An HTTP response.  `render = some res` models a response whose `render`
attribute is a callable that evaluates to `res` (a `TemplateResponse`);
`render = none` models a plain response with no `render` attribute.
`resource_closers` models `_resource_closers`, with closer callbacks
identified by tags. -/
inductive Response where
  | mk : (status_code : Nat) → (reason_phrase : String) →
      (resource_closers : List Nat) →
      (render : Option (Except Exc Response)) → (is_rendered : Bool) → Response

def Response.status_code : Response → Nat
  | .mk s _ _ _ _ => s

def Response.reason_phrase : Response → String
  | .mk _ p _ _ _ => p

def Response.resource_closers : Response → List Nat
  | .mk _ _ c _ _ => c

def Response.render : Response → Option (Except Exc Response)
  | .mk _ _ _ r _ => r

def Response.is_rendered : Response → Bool
  | .mk _ _ _ _ b => b

/-- `response._resource_closers.append(request.close)`. -/
def Response.appendCloser : Response → Nat → Response
  | .mk s p c r b, t => .mk s p (c ++ [t]) r b

/-- An HTTP request.  `close_tag` identifies its `close` callback;
`post_parse_error` is the flag set by `_mark_post_parse_error()`. -/
structure Request where
  path : String
  path_info : String
  close_tag : Nat
  post_parse_error : Bool
deriving DecidableEq, Repr

/-- `request._mark_post_parse_error()`: mark the already-parsed request body
unusable. -/
def Request.mark_post_parse_error (req : Request) : Request :=
  { req with post_parse_error := true }

/-- The value a Python handler or hook call can produce: `None`, an unawaited
coroutine object, or an actual response. -/
inductive PyResult where
  | none
  | coroutine
  | response (r : Response)

/-- Python truthiness of a handler/hook result (`if response:`): only `None`
is falsy; coroutine objects and responses are truthy. -/
def PyResult.truthy : PyResult → Bool
  | .none => false
  | _ => true

/-- Observable events: dispatch-engine hook invocations, log records and
signal sends. -/
inductive Entry where
  | viewMW (i : Nat)
  | viewCalled
  | templateMW (i : Nat)
  | renderCalled
  | excMW (i : Nat)
  | logResponse (msg : String)
  | securityLog (logger : String) (msg : String) (status : Nat)
  | signalGotRequestException
deriving DecidableEq, Repr

/-- A view (handler).  `run` is its call behaviour; `is_coroutine` is
`iscoroutinefunction(view)`; `non_atomic_requests` is the
`_non_atomic_requests` attribute; `atomic_aliases` records the database
aliases whose `transaction.atomic(using=alias)` wrapper has been applied
(the wrapper changes only transactional bracketing, not the computed
response, so `run` is preserved). -/
structure View where
  module : String
  vname : String
  is_function_type : Bool
  is_coroutine : Bool
  non_atomic_requests : List String
  atomic_aliases : List String
  run : Request → List Nat → Except Exc PyResult

/-- The default `name` computed by `check_response` from the callback. -/
def default_view_name (cb : View) : String :=
  if cb.is_function_type then
    "The view " ++ cb.module ++ "." ++ cb.vname
  else
    "The view " ++ cb.module ++ "." ++ cb.vname ++ ".__call__"

/-- `BaseHandler.check_response`: raise `ValueError` if the result is `None`
or an uncalled coroutine, otherwise pass the response through.  `name` is the
description of the producer (the caller passes the default computed from the
callback when the code passes `name=None`). -/
def check_response (response : PyResult) (name : String) : Except Exc Response :=
  match response with
  | .response r => .ok r
  | .none => .error (.valueError (name ++
      " didn't return an HttpResponse object. It returned None instead."))
  | .coroutine => .error (.valueError (name ++
      " didn't return an HttpResponse object. It returned an unawaited coroutine instead. You may need to add an 'await' into your view."))

/-- `transaction.atomic(using=alias)(view)`: record the wrapping; the wrapped
callable computes the same result and keeps its coroutine-ness. -/
def wrapAtomic (al : String) (v : View) : View :=
  { v with atomic_aliases := v.atomic_aliases ++ [al] }

/-- Loop body of `make_view_atomic` over `connections.settings.items()`.
`nar` is the `_non_atomic_requests` set captured once before the loop. -/
def make_view_atomic_go (nar : List String) :
    List (String × Bool) → View → Except Exc View
  | [], v => .ok v
  | (al, atomic) :: rest, v =>
    if atomic && !(nar.contains al) then
      if v.is_coroutine then
        .error (.runtimeError "You cannot use ATOMIC_REQUESTS with async views.")
      else
        make_view_atomic_go nar rest (wrapAtomic al v)
    else
      make_view_atomic_go nar rest v

/-- `BaseHandler.make_view_atomic`: wrap the view in a transaction for every
database alias with `ATOMIC_REQUESTS` enabled and not excluded by the view's
`_non_atomic_requests`; fatal `RuntimeError` for coroutine views. -/
def make_view_atomic (db : List (String × Bool)) (view : View) : Except Exc View :=
  make_view_atomic_go view.non_atomic_requests db view

/-- Type of registered `process_view` methods. -/
def ViewHook : Type :=
  Request → View → List Nat → Except Exc PyResult

/-- A registered `process_template_response` method together with the class
name of its middleware (used for the `check_response` message). -/
structure TemplateHook where
  cls : String
  call : Request → Response → Except Exc PyResult

/-- Type of registered `process_exception` methods: they return a response or
`None`. -/
def ExcHook : Type :=
  Request → Exc → Except Exc (Option Response)

/-- The view-middleware loop of `_get_response`: call each `process_view`
hook in list order; the first truthy result stops the loop.  `i` is the index
of the first hook of the remaining list, used only for trace events. -/
def viewMWLoop (req : Request) (cb : View) (args : List Nat) :
    List ViewHook → Nat → List Entry × Except Exc PyResult
  | [], _ => ([], .ok .none)
  | m :: ms, i =>
    match m req cb args with
    | .error e => ([.viewMW i], .error e)
    | .ok r =>
      if r.truthy then ([.viewMW i], .ok r)
      else
        let rest := viewMWLoop req cb args ms (i + 1)
        (.viewMW i :: rest.1, rest.2)

/-- `BaseHandler.process_exception_by_middleware`: pass the exception to each
`process_exception` hook in list order; return the first truthy response, or
`none` when every hook declines. -/
def process_exception_by_middleware (req : Request) (e : Exc) :
    List ExcHook → Nat → List Entry × Except Exc (Option Response)
  | [], _ => ([], .ok none)
  | m :: ms, i =>
    match m req e with
    | .error e2 => ([.excMW i], .error e2)
    | .ok (some r) => ([.excMW i], .ok (some r))
    | .ok none =>
      let rest := process_exception_by_middleware req e ms (i + 1)
      (.excMW i :: rest.1, rest.2)

/-- The template-response-middleware loop of `_get_response`: each hook
receives the previous hook's output; after each hook `check_response` is
applied with the `process_template_response` name. -/
def templateLoop (req : Request) :
    List TemplateHook → Nat → Response → List Entry × Except Exc Response
  | [], _, r => ([], .ok r)
  | m :: ms, i, r =>
    match m.call req r with
    | .error e => ([.templateMW i], .error e)
    | .ok pr =>
      match check_response pr (m.cls ++ ".process_template_response") with
      | .error e => ([.templateMW i], .error e)
      | .ok r2 =>
        let rest := templateLoop req ms (i + 1) r2
        (.templateMW i :: rest.1, rest.2)

/-- `response.render()` on the post-hook response: evaluate the stored render
operation; calling `render` on a response without one raises
`AttributeError`. -/
def render_call (r : Response) : Except Exc Response :=
  match r.render with
  | some res => res
  | none => .error (.other "AttributeError: render")

/-- The routing collaborator: `resolver.resolve(path_info)` yielding the view
and its arguments (positional and keyword arguments squashed into one list of
opaque tags), and `resolver.resolve_error_handler(status_code)` yielding an
error handler.  An error handler is called either with `exception=exc`
(`some exc`) or without it (`none`). -/
structure Resolver where
  resolve : String → Except Exc (View × List Nat)
  resolve_error_handler :
    Nat → Except Exc (Request → Option Exc → Except Exc Response)

/-- The state `_get_response` reads: the three hook lists populated by
`load_middleware`, the database settings (`alias`, `ATOMIC_REQUESTS`) and the
routing collaborator. -/
structure DEnv where
  view_middleware : List ViewHook
  template_response_middleware : List TemplateHook
  exception_middleware : List ExcHook
  db : List (String × Bool)
  resolver : Resolver

/-- `BaseHandler._get_response`: resolve the request, run `process_view`
hooks (first truthy response short-circuits), otherwise invoke the
(possibly transaction-wrapped) view with `process_exception` recovery,
validate the result, and for deferred-render responses run
`process_template_response` hooks and then render (again with
`process_exception` recovery).  The cooperative variant
`_get_response_async` differs only in mode-adaptation wrappers, which this
embedding erases. -/
def underscore_get_response (denv : DEnv) (req : Request) :
    List Entry × Except Exc Response :=
  match denv.resolver.resolve req.path_info with
  | .error e => ([], .error e)
  | .ok (callback, args) =>
    let step1 := viewMWLoop req callback args denv.view_middleware 0
    match step1.2 with
    | .error e => (step1.1, .error e)
    | .ok r0 =>
      let step2 : List Entry × Except Exc PyResult :=
        match r0 with
        | .none =>
          match make_view_atomic denv.db callback with
          | .error e => ([], .error e)
          | .ok wrapped =>
            match wrapped.run req args with
            | .ok r => ([.viewCalled], .ok r)
            | .error e =>
              let rec1 := process_exception_by_middleware req e
                denv.exception_middleware 0
              match rec1.2 with
              | .error e2 => (.viewCalled :: rec1.1, .error e2)
              | .ok none => (.viewCalled :: rec1.1, .error e)
              | .ok (some r) => (.viewCalled :: rec1.1, .ok (.response r))
        | _ => ([], .ok r0)
      match step2.2 with
      | .error e => (step1.1 ++ step2.1, .error e)
      | .ok rr =>
        match check_response rr (default_view_name callback) with
        | .error e => (step1.1 ++ step2.1, .error e)
        | .ok resp =>
          if (resp.render).isSome then
            let step3 := templateLoop req denv.template_response_middleware 0 resp
            match step3.2 with
            | .error e => (step1.1 ++ step2.1 ++ step3.1, .error e)
            | .ok resp2 =>
              match render_call resp2 with
              | .ok resp3 =>
                (step1.1 ++ step2.1 ++ step3.1 ++ [.renderCalled], .ok resp3)
              | .error e =>
                let rec2 := process_exception_by_middleware req e
                  denv.exception_middleware 0
                match rec2.2 with
                | .error e2 =>
                  (step1.1 ++ step2.1 ++ step3.1 ++ [.renderCalled] ++ rec2.1,
                    .error e2)
                | .ok none =>
                  (step1.1 ++ step2.1 ++ step3.1 ++ [.renderCalled] ++ rec2.1,
                    .error e)
                | .ok (some r) =>
                  (step1.1 ++ step2.1 ++ step3.1 ++ [.renderCalled] ++ rec2.1,
                    .ok r)
          else
            (step1.1 ++ step2.1, .ok resp)

/-- `BaseHandler._get_response_async`: identical control flow; the
differences in the source (awaiting, `sync_to_async` around synchronous
views, hooks and `process_exception_by_middleware`, and the final
`asyncio.iscoroutine` guard, which cannot fire here because validation has
already excluded coroutines) are scheduling-only and erased by this
embedding. -/
def underscore_get_response_async (denv : DEnv) (req : Request) :
    List Entry × Except Exc Response :=
  underscore_get_response denv req

/-- Relevant fields of `django.conf.settings`. -/
structure Settings where
  DEBUG : Bool
  DEBUG_PROPAGATE_EXCEPTIONS : Bool
deriving DecidableEq, Repr

/-- The process environment of the exception classifier: settings, the
routing collaborator, and the diagnostic page renderers
(`debug.technical_404_response` and `debug.technical_500_response`; the
latter takes the status code, defaulting to 500 at call sites that omit
it). -/
structure Env where
  settings : Settings
  resolver : Resolver
  technical_404 : Request → Exc → Response
  technical_500 : Request → Exc → Nat → Response

/-- The forced render at the end of `response_for_exception`:
`if not getattr(response, "is_rendered", True) and callable(getattr(response,
"render", None)): response = response.render()`. -/
def force_render (r : Response) : Except Exc Response :=
  match r.is_rendered, r.render with
  | false, some res => res
  | false, none => .ok r
  | true, _ => .ok r

/-- `handle_uncaught_exception`: re-raise when
`DEBUG_PROPAGATE_EXCEPTIONS` is set; otherwise a technical 500 page in debug
mode, else the resolved 500 error handler called without an exception
keyword. -/
def handle_uncaught_exception (env : Env) (req : Request) (e : Exc) :
    List Entry × Except Exc Response :=
  if env.settings.DEBUG_PROPAGATE_EXCEPTIONS then
    ([], .error e)
  else if env.settings.DEBUG then
    ([], .ok (env.technical_500 req e 500))
  else
    match env.resolver.resolve_error_handler 500 with
    | .error e2 => ([], .error e2)
    | .ok cb =>
      match cb req none with
      | .error e2 => ([], .error e2)
      | .ok r => ([], .ok r)

/-- `get_exception_response`: resolve and call the status-specific error
handler; if that itself raises, send `got_request_exception` and fall through
to `handle_uncaught_exception` with the new exception. -/
def get_exception_response (env : Env) (req : Request) (status : Nat) (e : Exc) :
    List Entry × Except Exc Response :=
  match env.resolver.resolve_error_handler status with
  | .error e2 =>
    let fallback := handle_uncaught_exception env req e2
    (Entry.signalGotRequestException :: fallback.1, fallback.2)
  | .ok cb =>
    match cb req (some e) with
    | .ok r => ([], .ok r)
    | .error e2 =>
      let fallback := handle_uncaught_exception env req e2
      (Entry.signalGotRequestException :: fallback.1, fallback.2)

/-- The classification table of `response_for_exception`, before the final
forced render. Returns the (possibly mutated) request, the emitted log/signal
entries and the outcome. -/
def classify_exception (env : Env) (req : Request) (e : Exc) :
    Request × List Entry × Except Exc Response :=
  match e with
  | .http404 =>
    if env.settings.DEBUG then
      (req, [], .ok (env.technical_404 req e))
    else
      let ger := get_exception_response env req 404 e
      (req, ger.1, ger.2)
  | .permissionDenied =>
    let ger := get_exception_response env req 403 e
    match ger.2 with
    | .error e2 => (req, ger.1, .error e2)
    | .ok r =>
      (req, ger.1 ++
        [.logResponse ("Forbidden (Permission denied): " ++ req.path)], .ok r)
  | .multiPartParserError =>
    let ger := get_exception_response env req 400 e
    match ger.2 with
    | .error e2 => (req, ger.1, .error e2)
    | .ok r =>
      (req, ger.1 ++
        [.logResponse ("Bad request (Unable to parse request body): " ++ req.path)],
        .ok r)
  | .badRequest msg =>
    let res : List Entry × Except Exc Response :=
      if env.settings.DEBUG then
        ([], .ok (env.technical_500 req e 400))
      else
        get_exception_response env req 400 e
    match res.2 with
    | .error e2 => (req, res.1, .error e2)
    | .ok r =>
      (req, res.1 ++ [.logResponse (msg ++ ": " ++ req.path)], .ok r)
  | .suspiciousOperation sub msg =>
    let req2 := if sub.isBodyLimit then req.mark_post_parse_error else req
    let sec : Entry :=
      .securityLog ("django.security." ++ sub.className) msg 400
    if env.settings.DEBUG then
      (req2, [sec], .ok (env.technical_500 req2 e 400))
    else
      let ger := get_exception_response env req2 400 e
      (req2, sec :: ger.1, ger.2)
  | _ =>
    let unc := handle_uncaught_exception env req e
    match unc.2 with
    | .error e2 =>
      (req, Entry.signalGotRequestException :: unc.1, .error e2)
    | .ok r =>
      (req, (Entry.signalGotRequestException :: unc.1) ++
        [.logResponse (r.reason_phrase ++ ": " ++ req.path)], .ok r)

/-- `response_for_exception`: classify, then force deferred-render error
responses to be fully materialized. -/
def response_for_exception (env : Env) (req : Request) (e : Exc) :
    Request × List Entry × Except Exc Response :=
  let cls := classify_exception env req e
  match cls.2.2 with
  | .error e2 => (cls.1, cls.2.1, .error e2)
  | .ok r => (cls.1, cls.2.1, force_render r)

/-- The result of one invocation of a request handler: the request object
after in-place mutations, the emitted trace, and the response or the escaped
exception. -/
def HR : Type :=
  Request × List Entry × Except Exc Response

/-- `convert_exception_to_response`: wrap `get_response` so that any
exception it raises is converted by `response_for_exception`; applied to
every middleware link and to the innermost dispatch engine.  The source has a
blocking and a cooperative branch whose only difference is the
`sync_to_async` wrapping of `response_for_exception`, which is
scheduling-only and erased here. -/
def convert_exception_to_response (env : Env) (g : Request → HR) :
    Request → HR :=
  fun req =>
    match g req with
    | (req2, es, .ok r) => (req2, es, .ok r)
    | (req2, es, .error e) =>
      let conv := response_for_exception env req2 e
      (conv.1, es ++ conv.2.1, conv.2.2)

/-- `BaseHandler.get_response` (the Pipeline Entry Point, spec `handle`):
invoke the middleware chain, append the request's close callback to the
response's resource closers, and log `"<reason-phrase>: <path>"` for
status >= 400. -/
def get_response (chain : Request → HR) (req : Request) : HR :=
  match chain req with
  | (req2, es, .error e) => (req2, es, .error e)
  | (req2, es, .ok r) =>
    let r2 := r.appendCloser req2.close_tag
    if r2.status_code >= 400 then
      (req2, es ++ [.logResponse (r2.reason_phrase ++ ": " ++ req2.path)], .ok r2)
    else
      (req2, es, .ok r2)

/-- `BaseHandler.get_response_async` (spec `handle_async`): identical
bookkeeping; the source differs only in awaiting the chain and adapting
`log_response` with `sync_to_async`, both scheduling-only and erased by this
embedding. -/
def get_response_async (chain : Request → HR) (req : Request) : HR :=
  get_response chain req

/-- A configured middleware as `load_middleware` sees it: its dotted path,
the `sync_capable`/`async_capable` flags (with the source's `getattr`
defaults applied by the configuration writer), whether its factory raises
`MiddlewareNotUsed` or returns `None`, the hook methods the instance
exposes, its class name (for `process_template_response` messages) and its
`__call__` behaviour around the adapted inner handler. -/
structure MWClass where
  path : String
  sync_capable : Bool
  async_capable : Bool
  not_used : Bool
  returns_none : Bool
  process_view : Option ViewHook
  process_template_response : Option TemplateHook
  process_exception : Option ExcHook
  call : (Request → HR) → Request → HR

/-- The state accumulated by the `load_middleware` loop: the three hook
lists, the per-stage mode decisions `(path, middleware_is_async)` in
processing order, the instantiated middleware in configuration order
(outermost first), and the mode of the handler built so far. -/
structure LoadState where
  view_middleware : List ViewHook
  template_response_middleware : List TemplateHook
  exception_middleware : List ExcHook
  modes : List (String × Bool)
  used : List MWClass
  handler_is_async : Bool

/-- One middleware's `middleware_is_async` decision, given the mode of the
handler built so far (`handler_is_async`). -/
def decide_mode (handler_is_async : Bool) (mw : MWClass) : Bool :=
  if !handler_is_async && mw.sync_capable then false else mw.async_capable

/-- The loop of `BaseHandler.load_middleware` over
`reversed(settings.MIDDLEWARE)`: reject descriptors with neither capability
flag; decide the stage mode; skip stages whose factory raises
`MiddlewareNotUsed` (leaving the handler and its mode unchanged); reject
factories returning `None`; register `process_view` by prepending and
`process_template_response`/`process_exception` by appending; update the
handler mode to the stage's mode. -/
def load_loop (st : LoadState) : List MWClass → Except Exc LoadState
  | [] => .ok st
  | mw :: rest =>
    if !mw.sync_capable && !mw.async_capable then
      .error (.runtimeError ("Middleware " ++ mw.path ++
        " must have at least one of sync_capable/async_capable set to True."))
    else
      let middleware_is_async := decide_mode st.handler_is_async mw
      if mw.not_used then
        load_loop st rest
      else if mw.returns_none then
        .error (.improperlyConfigured ("Middleware factory " ++ mw.path ++
          " returned None."))
      else
        let st2 : LoadState :=
          { view_middleware :=
              (match mw.process_view with
               | some h => [h]
               | none => []) ++ st.view_middleware
            template_response_middleware :=
              st.template_response_middleware ++
                (match mw.process_template_response with
                 | some h => [h]
                 | none => [])
            exception_middleware :=
              st.exception_middleware ++
                (match mw.process_exception with
                 | some h => [h]
                 | none => [])
            modes := st.modes ++ [(mw.path, middleware_is_async)]
            used := mw :: st.used
            handler_is_async := middleware_is_async }
        load_loop st2 rest

/-- `BaseHandler.load_middleware`: run the loop over the reversed
configuration, starting from empty hook lists and `handler_is_async :=
is_async`. -/
def load_middleware (is_async : Bool) (cfg : List MWClass) : Except Exc LoadState :=
  load_loop ⟨[], [], [], [], [], is_async⟩ cfg.reverse

/-- Build the `DEnv` the dispatch engine reads from the loaded middleware
state, the routing collaborator and the database settings. -/
def denv_of (st : LoadState) (resolver : Resolver) (db : List (String × Bool)) :
    DEnv :=
  ⟨st.view_middleware, st.template_response_middleware,
    st.exception_middleware, db, resolver⟩

/-- Lift the dispatch engine to a request handler (the innermost link of the
chain). -/
def dispatch_handler (denv : DEnv) : Request → HR :=
  fun req =>
    let r := underscore_get_response denv req
    (req, r.1, r.2)

/-- The nesting produced by `load_middleware`: every instantiated middleware,
outermost (first-configured) first, wraps the next link, and every link is
fault-contained by `convert_exception_to_response`. -/
def wrap_chain (env : Env) : List MWClass → (Request → HR) → Request → HR
  | [], h => h
  | mw :: rest, h =>
    convert_exception_to_response env (mw.call (wrap_chain env rest h))

/-- The complete `_middleware_chain` for a loaded configuration: the
fault-contained dispatch engine wrapped by the instantiated middleware (the
final `adapt_method_mode` of the top of the stack is scheduling-only and
erased). -/
def middleware_chain (env : Env) (denv : DEnv) (used : List MWClass) :
    Request → HR :=
  wrap_chain env used
    (convert_exception_to_response env (dispatch_handler denv))

/-- Well-behavedness of the collaborators consulted by the classifier: every
status-specific error handler resolves and returns an already-rendered
response with the matching status, and the diagnostic page renderers return
already-rendered pages with the requested status.  These are the narrow
contracts §6 of the spec assumes of the routing and diagnostic
collaborators. -/
structure GoodEnv (env : Env) : Prop where
  eh_total : ∀ s, ∃ cb, env.resolver.resolve_error_handler s = Except.ok cb ∧
    ∀ req oe, ∃ r, cb req oe = Except.ok r ∧
      r.is_rendered = true ∧ r.status_code = s
  t404_rendered : ∀ req e, (env.technical_404 req e).is_rendered = true
  t500_rendered : ∀ req e s, (env.technical_500 req e s).is_rendered = true
  t500_status : ∀ req e s, (env.technical_500 req e s).status_code = s

/-- Exception kinds that fall through to the uncaught-fault (500) branch of
the classifier. -/
def uncaught_kind : Exc → Bool
  | .valueError _ => true
  | .runtimeError _ => true
  | .improperlyConfigured _ => true
  | .other _ => true
  | _ => false

/-- A configured middleware whose load-time checks all pass: at least one
capability flag, factory neither raising `MiddlewareNotUsed` nor returning
`None`. -/
def GoodMW (mw : MWClass) : Prop :=
  (mw.sync_capable = true ∨ mw.async_capable = true) ∧
    mw.not_used = false ∧ mw.returns_none = false

/-- Specification of the per-stage mode decisions, following the amended
wording of C4: a stage runs in blocking mode exactly when the handler built
so far (its downstream, whose mode starts as the overall pipeline mode and
then tracks each instantiated stage's chosen mode) is blocking and the stage
declares blocking capability; otherwise it runs in the mode given by its
cooperative capability flag.  Stages whose factory declines participation
leave the downstream mode unchanged. -/
def mode_decision_spec (handler_is_async : Bool) :
    List MWClass → List (String × Bool)
  | [] => []
  | mw :: rest =>
    let m := if !handler_is_async && mw.sync_capable then false
      else mw.async_capable
    if mw.not_used then mode_decision_spec handler_is_async rest
    else (mw.path, m) :: mode_decision_spec m rest

/-- The mode assignment asserted by C4 as stated, for a blocking pipeline:
every stage declaring blocking capability runs in blocking mode, and any
other stage runs in the mode of its cooperative capability flag — depending
only on the stage itself, not on the stages around it. -/
def c4_claimed_modes : List MWClass → List (String × Bool)
  | [] => []
  | mw :: rest =>
    (mw.path, if mw.sync_capable then false else mw.async_capable) ::
      c4_claimed_modes rest

/-- Whether a trace entry is a security-audit log record. -/
def isSecurityEntry : Entry → Bool
  | .securityLog _ _ _ => true
  | _ => false

/-- A middleware with the given path and capability flags, no hooks, a
participating factory and a `__call__` that simply delegates to the inner
handler. -/
def plainMW (path : String) (sc ac : Bool) : MWClass :=
  { path := path, sync_capable := sc, async_capable := ac,
    not_used := false, returns_none := false,
    process_view := none, process_template_response := none,
    process_exception := none, call := fun g => g }

/-- A plain, already-rendered response with the given status and reason. -/
def respPlain (s : Nat) (phrase : String) : Response :=
  .mk s phrase [] none true

/-- A concrete request used in the concrete instances below. -/
def reqW : Request :=
  { path := "/p", path_info := "/p", close_tag := 7, post_parse_error := false }

/-- A synchronous view returning a plain 200 response. -/
def viewOkW : View :=
  { module := "app.views", vname := "home", is_function_type := true,
    is_coroutine := false, non_atomic_requests := [], atomic_aliases := [],
    run := fun _ _ => .ok (.response (respPlain 200 "OK")) }

/-- A synchronous view returning `None`. -/
def viewNoneW : View :=
  { module := "app.views", vname := "broken", is_function_type := true,
    is_coroutine := false, non_atomic_requests := [], atomic_aliases := [],
    run := fun _ _ => .ok .none }

/-- A coroutine view. -/
def viewAsyncW : View :=
  { module := "app.views", vname := "aview", is_function_type := true,
    is_coroutine := true, non_atomic_requests := [], atomic_aliases := [],
    run := fun _ _ => .ok (.response (respPlain 200 "OK")) }

/-- A resolver resolving every path to the given view and whose error
handlers are total, returning plain rendered pages with the requested
status. -/
def resolverOf (v : View) : Resolver :=
  { resolve := fun _ => .ok (v, [])
    resolve_error_handler :=
      fun s => .ok (fun _ _ => .ok (respPlain s "Error")) }

/-- A production-mode environment (`DEBUG` and the propagate override both
off) with well-behaved collaborators. -/
def envW : Env :=
  { settings := { DEBUG := false, DEBUG_PROPAGATE_EXCEPTIONS := false }
    resolver := resolverOf viewOkW
    technical_404 := fun _ _ => respPlain 404 "NotFoundPage"
    technical_500 := fun _ _ s => respPlain s "TechnicalPage" }

/-- `envW` with the `DEBUG_PROPAGATE_EXCEPTIONS` override active. -/
def envP : Env :=
  { settings := { DEBUG := false, DEBUG_PROPAGATE_EXCEPTIONS := true }
    resolver := resolverOf viewOkW
    technical_404 := fun _ _ => respPlain 404 "NotFoundPage"
    technical_500 := fun _ _ s => respPlain s "TechnicalPage" }

/-- An inner handler that raises a generic application exception. -/
def gBoom : Request → HR :=
  fun req => (req, [], .error (.other "boom"))

/-- Dispatch state with no middleware, resolving to the `None`-returning
view. -/
def denvNone : DEnv :=
  { view_middleware := [], template_response_middleware := [],
    exception_middleware := [], db := [], resolver := resolverOf viewNoneW }

/-- The tail of the `check_response` error message for each invalid handler
result (empty for an actual response, which never fails validation):
mirrors the two `ValueError` messages of `BaseHandler.check_response`. -/
def invalid_result_suffix : PyResult → String
  | .none => " didn't return an HttpResponse object. It returned None instead."
  | .coroutine =>
    " didn't return an HttpResponse object. It returned an unawaited coroutine instead. You may need to add an 'await' into your view."
  | .response _ => ""

/-- A synchronous view returning an unawaited coroutine object. -/
def viewCoroW : View :=
  { module := "app.views", vname := "forgot_await", is_function_type := true,
    is_coroutine := false, non_atomic_requests := [], atomic_aliases := [],
    run := fun _ _ => .ok .coroutine }

/-- Dispatch state with no middleware, resolving to the view that returns an
unawaited coroutine. -/
def denvCoro : DEnv :=
  { view_middleware := [], template_response_middleware := [],
    exception_middleware := [], db := [], resolver := resolverOf viewCoroW }

/-- Dispatch state with no middleware, one `ATOMIC_REQUESTS` database alias
and a coroutine view. -/
def denvAtomic : DEnv :=
  { view_middleware := [], template_response_middleware := [],
    exception_middleware := [], db := [("default", true)],
    resolver := resolverOf viewAsyncW }

/-- A `process_view` hook that declines. -/
def hookDecline : ViewHook :=
  fun _ _ _ => .ok .none

/-- A `process_view` hook that short-circuits with a plain 201 response. -/
def hookFire : ViewHook :=
  fun _ _ _ => .ok (.response (respPlain 201 "Hooked"))

/-- Configuration for the C5 instance: a declining `process_view` hook
followed by a short-circuiting one. -/
def cfg5 : List MWClass :=
  [{ plainMW "MW1" true false with process_view := some hookDecline },
   { plainMW "MW2" true false with process_view := some hookFire }]

/-- Append a tag to a response's reason phrase, storing a matching rendered
result so the final render step reflects the cumulative tags. -/
def tagResp (s : String) (r : Response) : Response :=
  .mk 200 (r.reason_phrase ++ s) []
    (some (.ok (.mk 200 (r.reason_phrase ++ s) [] none true))) false

/-- A `process_template_response` hook tagging the response it receives. -/
def tHook (s : String) : TemplateHook :=
  { cls := s, call := fun _ r => .ok (.response (tagResp s r)) }

/-- A deferred-render view response with an empty tag. -/
def respDeferred : Response :=
  .mk 200 "" [] (some (.ok (.mk 200 "" [] none true))) false

/-- A view returning the deferred-render response. -/
def viewC2 : View :=
  { module := "app.views", vname := "deferred", is_function_type := true,
    is_coroutine := false, non_atomic_requests := [], atomic_aliases := [],
    run := fun _ _ => .ok (.response respDeferred) }

/-- Configuration for the C2 instance: stage `A` configured first, stage `B`
second, both exposing tagging post-render hooks. -/
def cfgC2 : List MWClass :=
  [{ plainMW "A" true false with process_template_response := some (tHook "A") },
   { plainMW "B" true false with process_template_response := some (tHook "B") }]

/-- Reason phrase of the response actually produced by the dispatch engine
for the C2 configuration. -/
def run_c2_actual : Option String :=
  match load_middleware false cfgC2 with
  | .error _ => none
  | .ok st =>
    ((underscore_get_response (denv_of st (resolverOf viewC2) []) reqW).2).toOption.map
      Response.reason_phrase

/-- Reason phrase the C2 claim as stated predicts: the post-render hooks
applied in configuration order (first-configured first), each receiving the
previous hook's output. -/
def run_c2_claimed : Option String :=
  ((templateLoop reqW (cfgC2.filterMap MWClass.process_template_response) 0
      respDeferred).2).toOption.map Response.reason_phrase

/-- An on-fault hook that declines. -/
def eHookNone : ExcHook :=
  fun _ _ => .ok none

/-- An on-fault hook recovering with a plain 418 response. -/
def eHookSome : ExcHook :=
  fun _ _ => .ok (some (respPlain 418 "Teapot"))

/-- Configuration for the C10 instance: stage `E1` (declining hook)
configured before stage `E2` (recovering hook). -/
def cfgC10 : List MWClass :=
  [{ plainMW "E1" true false with process_exception := some eHookNone },
   { plainMW "E2" true false with process_exception := some eHookSome }]

/-- Configuration for the C4 counterexample: blocking pipeline, stage `A`
with both capabilities configured before an async-only stage `B`. -/
def cfgC4 : List MWClass :=
  [plainMW "A" true true, plainMW "B" false true]

/-- A descriptor with neither capability flag. -/
def cfgC8 : List MWClass :=
  [plainMW "X" false false]

/-- A factory returning `None` without signaling `MiddlewareNotUsed`. -/
def cfgC8b : List MWClass :=
  [{ plainMW "Y" true false with returns_none := true }]

theorem force_render_of_rendered {r : Response} (h : r.is_rendered = true) :
    force_render r = .ok r := by
  cases r with
  | mk s p c rd b =>
    simp [Response.is_rendered] at h
    subst h
    simp [force_render, Response.is_rendered, Response.render]

theorem get_exception_response_good {env : Env} (G : GoodEnv env)
    (req : Request) (s : Nat) (e : Exc) :
    ∃ r, get_exception_response env req s e = ([], .ok r) ∧
      r.is_rendered = true ∧ r.status_code = s := by
  obtain ⟨cb, hcb, hall⟩ := G.eh_total s
  obtain ⟨r, hr, hrend, hst⟩ := hall req (some e)
  refine ⟨r, ?_, hrend, hst⟩
  simp [get_exception_response, hcb, hr]

theorem handle_uncaught_good {env : Env} (G : GoodEnv env)
    (hprop : env.settings.DEBUG_PROPAGATE_EXCEPTIONS = false)
    (req : Request) (e : Exc) :
    ∃ r, handle_uncaught_exception env req e = ([], .ok r) ∧
      r.is_rendered = true ∧ r.status_code = 500 := by
  unfold handle_uncaught_exception
  rw [hprop]
  by_cases hd : env.settings.DEBUG
  · exact ⟨env.technical_500 req e 500, by simp [hd],
      G.t500_rendered req e 500, G.t500_status req e 500⟩
  · obtain ⟨cb, hcb, hall⟩ := G.eh_total 500
    obtain ⟨r, hr, hrend, hst⟩ := hall req none
    exact ⟨r, by simp [hd, hcb, hr], hrend, hst⟩

theorem response_for_exception_total {env : Env} (G : GoodEnv env)
    (hprop : env.settings.DEBUG_PROPAGATE_EXCEPTIONS = false)
    (req : Request) (e : Exc) :
    ∃ r, (response_for_exception env req e).2.2 = .ok r := by
  cases e with
  | http404 =>
    by_cases hd : env.settings.DEBUG
    · exact ⟨env.technical_404 req .http404, by
        simp [response_for_exception, classify_exception, hd,
          force_render_of_rendered (G.t404_rendered req .http404)]⟩
    · obtain ⟨r, hger, hrend, _⟩ := get_exception_response_good G req 404 .http404
      exact ⟨r, by
        simp [response_for_exception, classify_exception, hd, hger,
          force_render_of_rendered hrend]⟩
  | permissionDenied =>
    obtain ⟨r, hger, hrend, _⟩ :=
      get_exception_response_good G req 403 .permissionDenied
    exact ⟨r, by
      simp [response_for_exception, classify_exception, hger,
        force_render_of_rendered hrend]⟩
  | multiPartParserError =>
    obtain ⟨r, hger, hrend, _⟩ :=
      get_exception_response_good G req 400 .multiPartParserError
    exact ⟨r, by
      simp [response_for_exception, classify_exception, hger,
        force_render_of_rendered hrend]⟩
  | badRequest msg =>
    by_cases hd : env.settings.DEBUG
    · exact ⟨env.technical_500 req (.badRequest msg) 400, by
        simp [response_for_exception, classify_exception, hd,
          force_render_of_rendered (G.t500_rendered req (.badRequest msg) 400)]⟩
    · obtain ⟨r, hger, hrend, _⟩ :=
        get_exception_response_good G req 400 (.badRequest msg)
      exact ⟨r, by
        simp [response_for_exception, classify_exception, hd, hger,
          force_render_of_rendered hrend]⟩
  | suspiciousOperation sub msg =>
    by_cases hd : env.settings.DEBUG
    · exact ⟨_, by
        simp only [response_for_exception, classify_exception, hd, if_true]
        rw [force_render_of_rendered (G.t500_rendered _ _ 400)]⟩
    · obtain ⟨r, hger, hrend, _⟩ := get_exception_response_good G
        (if sub.isBodyLimit then req.mark_post_parse_error else req) 400
        (.suspiciousOperation sub msg)
      exact ⟨r, by
        simp [response_for_exception, classify_exception, hd, hger,
          force_render_of_rendered hrend]⟩
  | valueError msg =>
    obtain ⟨r, hunc, hrend, _⟩ := handle_uncaught_good G hprop req (.valueError msg)
    exact ⟨r, by
      simp [response_for_exception, classify_exception, hunc,
        force_render_of_rendered hrend]⟩
  | runtimeError msg =>
    obtain ⟨r, hunc, hrend, _⟩ := handle_uncaught_good G hprop req (.runtimeError msg)
    exact ⟨r, by
      simp [response_for_exception, classify_exception, hunc,
        force_render_of_rendered hrend]⟩
  | improperlyConfigured msg =>
    obtain ⟨r, hunc, hrend, _⟩ :=
      handle_uncaught_good G hprop req (.improperlyConfigured msg)
    exact ⟨r, by
      simp [response_for_exception, classify_exception, hunc,
        force_render_of_rendered hrend]⟩
  | other msg =>
    obtain ⟨r, hunc, hrend, _⟩ := handle_uncaught_good G hprop req (.other msg)
    exact ⟨r, by
      simp [response_for_exception, classify_exception, hunc,
        force_render_of_rendered hrend]⟩

theorem response_for_exception_propagate {env : Env}
    (hprop : env.settings.DEBUG_PROPAGATE_EXCEPTIONS = true)
    (req : Request) (e : Exc) (hk : uncaught_kind e = true) :
    response_for_exception env req e =
      (req, [Entry.signalGotRequestException], .error e) := by
  cases e <;> simp_all [uncaught_kind] <;>
    simp [response_for_exception, classify_exception,
      handle_uncaught_exception, hprop]

theorem viewMWLoop_all_none {req : Request} {cb : View} {args : List Nat}
    {l : List ViewHook} (h : ∀ m ∈ l, m req cb args = .ok .none) :
    ∀ i, viewMWLoop req cb args l i =
      ((List.range' i l.length).map Entry.viewMW, .ok .none) := by
  induction l with
  | nil => intro i; simp [viewMWLoop]
  | cons m ms ih =>
    intro i
    have hm : m req cb args = .ok .none := h m (List.mem_cons_self m ms)
    have hrest : ∀ m' ∈ ms, m' req cb args = .ok .none :=
      fun m' hm' => h m' (List.mem_cons_of_mem m hm')
    simp [viewMWLoop, hm, PyResult.truthy, ih hrest (i + 1), List.range']

theorem viewMWLoop_fires {req : Request} {cb : View} {args : List Nat}
    {front back : List ViewHook} {m : ViewHook} {r : Response}
    (hfront : ∀ f ∈ front, f req cb args = .ok .none)
    (hm : m req cb args = .ok (.response r)) :
    ∀ i, viewMWLoop req cb args (front ++ m :: back) i =
      ((List.range' i (front.length + 1)).map Entry.viewMW,
        .ok (.response r)) := by
  induction front with
  | nil =>
    intro i
    simp [viewMWLoop, hm, PyResult.truthy, List.range']
  | cons f fs ih =>
    intro i
    have hf : f req cb args = .ok .none := hfront f (List.mem_cons_self f fs)
    have hrest : ∀ f' ∈ fs, f' req cb args = .ok .none :=
      fun f' hf' => hfront f' (List.mem_cons_of_mem f hf')
    simp [viewMWLoop, hf, PyResult.truthy, ih hrest (i + 1), List.range']

theorem make_view_atomic_go_sync {nar : List String} :
    ∀ (db : List (String × Bool)) (v : View), v.is_coroutine = false →
      ∃ v', make_view_atomic_go nar db v = .ok v' ∧
        v'.run = v.run ∧ v'.module = v.module ∧ v'.vname = v.vname ∧
        v'.is_function_type = v.is_function_type := by
  intro db
  induction db with
  | nil => intro v hv; exact ⟨v, rfl, rfl, rfl, rfl, rfl⟩
  | cons hd rest ih =>
    intro v hv
    obtain ⟨al, atomic⟩ := hd
    by_cases hc : (atomic && !(nar.contains al)) = true
    · obtain ⟨v', h1, h2, h3, h4, h5⟩ :=
        ih (wrapAtomic al v) (by simp [wrapAtomic, hv])
      refine ⟨v', ?_, h2, h3, h4, h5⟩
      simp only [make_view_atomic_go]
      rw [if_pos hc, if_neg (by simp [hv])]
      exact h1
    · obtain ⟨v', h1, h2, h3, h4, h5⟩ := ih v hv
      refine ⟨v', ?_, h2, h3, h4, h5⟩
      simp only [make_view_atomic_go]
      rw [if_neg hc]
      exact h1

theorem make_view_atomic_go_coroutine {nar : List String} :
    ∀ (db : List (String × Bool)) (v : View), v.is_coroutine = true →
      (∃ al, (al, true) ∈ db ∧ nar.contains al = false) →
      make_view_atomic_go nar db v =
        .error (.runtimeError "You cannot use ATOMIC_REQUESTS with async views.") := by
  intro db
  induction db with
  | nil =>
    intro v _ hex
    obtain ⟨al, hmem, _⟩ := hex
    simp at hmem
  | cons hd rest ih =>
    intro v hv hex
    obtain ⟨al0, atomic0⟩ := hd
    by_cases hc : (atomic0 && !(nar.contains al0)) = true
    · simp only [make_view_atomic_go]
      rw [if_pos hc, if_pos hv]
    · obtain ⟨al, hmem, hnc⟩ := hex
      rcases List.mem_cons.mp hmem with heq | hmem2
      · rw [Prod.mk.injEq] at heq
        obtain ⟨he1, he2⟩ := heq
        subst he1
        exfalso
        apply hc
        rw [← he2, hnc]
        rfl
      · simp only [make_view_atomic_go]
        rw [if_neg hc]
        exact ih v hv ⟨al, hmem2, hnc⟩

theorem pexc_first_some {req : Request} {e : Exc}
    {front back : List ExcHook} {h : ExcHook} {r : Response}
    (hfront : ∀ f ∈ front, f req e = .ok none)
    (hh : h req e = .ok (some r)) :
    ∀ i, (process_exception_by_middleware req e (front ++ h :: back) i).2 =
      .ok (some r) := by
  induction front with
  | nil => intro i; simp [process_exception_by_middleware, hh]
  | cons f fs ih =>
    intro i
    have hf : f req e = .ok none := hfront f (List.mem_cons_self f fs)
    have hrest : ∀ f' ∈ fs, f' req e = .ok none :=
      fun f' hf' => hfront f' (List.mem_cons_of_mem f hf')
    simp [process_exception_by_middleware, hf, ih hrest (i + 1)]

theorem pexc_all_none {req : Request} {e : Exc} {l : List ExcHook}
    (h : ∀ f ∈ l, f req e = .ok none) :
    ∀ i, (process_exception_by_middleware req e l i).2 = .ok none := by
  induction l with
  | nil => intro i; simp [process_exception_by_middleware]
  | cons f fs ih =>
    intro i
    have hf : f req e = .ok none := h f (List.mem_cons_self f fs)
    have hrest : ∀ f' ∈ fs, f' req e = .ok none :=
      fun f' hf' => h f' (List.mem_cons_of_mem f hf')
    simp [process_exception_by_middleware, hf, ih hrest (i + 1)]

theorem templateLoop_result_index {req : Request} :
    ∀ (l : List TemplateHook) (i j : Nat) (r : Response),
      (templateLoop req l i r).2 = (templateLoop req l j r).2 := by
  intro l
  induction l with
  | nil => intro i j r; simp [templateLoop]
  | cons m ms ih =>
    intro i j r
    simp only [templateLoop]
    cases hc : m.call req r with
    | error e => simp [hc]
    | ok pr =>
      cases hr : check_response pr (m.cls ++ ".process_template_response") with
      | error e => simp [hc, hr]
      | ok r2 =>
        simp only [hc, hr]
        simpa using ih (i + 1) (j + 1) r2

theorem templateLoop_append {req : Request} :
    ∀ (l1 l2 : List TemplateHook) (i : Nat) (r : Response),
      (templateLoop req (l1 ++ l2) i r).2 =
        match (templateLoop req l1 i r).2 with
        | .ok r1 => (templateLoop req l2 i r1).2
        | .error e => .error e := by
  intro l1
  induction l1 with
  | nil => intro l2 i r; simp [templateLoop]
  | cons m ms ih =>
    intro l2 i r
    simp only [List.cons_append, templateLoop]
    cases hc : m.call req r with
    | error e => simp [hc]
    | ok pr =>
      cases hr : check_response pr (m.cls ++ ".process_template_response") with
      | error e => simp [hc, hr]
      | ok r2 =>
        simp only [hc, hr, List.append_eq]
        rw [templateLoop_result_index (ms ++ l2) (i + 1) i r2,
          templateLoop_result_index ms (i + 1) i r2, ih l2 i r2]

theorem load_loop_good :
    ∀ (l : List MWClass) (st : LoadState), (∀ mw ∈ l, GoodMW mw) →
      ∃ st', load_loop st l = .ok st' ∧
        st'.view_middleware =
          (l.filterMap MWClass.process_view).reverse ++ st.view_middleware ∧
        st'.template_response_middleware =
          st.template_response_middleware ++
            l.filterMap MWClass.process_template_response ∧
        st'.exception_middleware =
          st.exception_middleware ++ l.filterMap MWClass.process_exception ∧
        st'.used = l.reverse ++ st.used := by
  intro l
  induction l with
  | nil =>
    intro st _
    exact ⟨st, rfl, by simp, by simp, by simp, by simp⟩
  | cons mw rest ih =>
    intro st h
    obtain ⟨hcap, hnu, hrn⟩ := h mw (List.mem_cons_self mw rest)
    have hrest : ∀ m ∈ rest, GoodMW m :=
      fun m hm => h m (List.mem_cons_of_mem mw hm)
    have hflag : (!mw.sync_capable && !mw.async_capable) = false := by
      rcases hcap with hs | ha
      · simp [hs]
      · simp [ha]
    obtain ⟨st', h1, hv, ht, he, hu⟩ := ih
      { view_middleware :=
          (match mw.process_view with
           | some h0 => [h0]
           | none => []) ++ st.view_middleware
        template_response_middleware :=
          st.template_response_middleware ++
            (match mw.process_template_response with
             | some h0 => [h0]
             | none => [])
        exception_middleware :=
          st.exception_middleware ++
            (match mw.process_exception with
             | some h0 => [h0]
             | none => [])
        modes := st.modes ++ [(mw.path, decide_mode st.handler_is_async mw)]
        used := mw :: st.used
        handler_is_async := decide_mode st.handler_is_async mw } hrest
    refine ⟨st', ?_, ?_, ?_, ?_, ?_⟩
    · simp only [load_loop, hflag, Bool.false_eq_true, if_false, hnu, hrn]
      exact h1
    · rw [hv]
      cases hpv : mw.process_view <;>
        simp [List.filterMap_cons, hpv, List.append_assoc]
    · rw [ht]
      cases hpt : mw.process_template_response <;>
        simp [List.filterMap_cons, hpt, List.append_assoc]
    · rw [he]
      cases hpe : mw.process_exception <;>
        simp [List.filterMap_cons, hpe, List.append_assoc]
    · rw [hu]
      simp

theorem load_loop_modes :
    ∀ (l : List MWClass) (st st' : LoadState), load_loop st l = .ok st' →
      st'.modes = st.modes ++ mode_decision_spec st.handler_is_async l := by
  intro l
  induction l with
  | nil =>
    intro st st' h
    simp only [load_loop] at h
    cases h
    simp [mode_decision_spec]
  | cons mw rest ih =>
    intro st st' h
    simp only [load_loop] at h
    by_cases hflag : (!mw.sync_capable && !mw.async_capable) = true
    · rw [if_pos hflag] at h
      cases h
    · rw [if_neg hflag] at h
      by_cases hnu : mw.not_used = true
      · rw [if_pos hnu] at h
        have := ih st st' h
        simp only [mode_decision_spec, hnu, if_true]
        exact this
      · rw [if_neg hnu] at h
        by_cases hrn : mw.returns_none = true
        · rw [if_pos hrn] at h
          cases h
        · rw [if_neg hrn] at h
          have := ih _ st' h
          simp only [this]
          simp [mode_decision_spec, hnu, decide_mode, List.append_assoc]

/-- C4 (counterexample): in a blocking pipeline (`is_async = false`) with
stage `A` (sync and async capable) configured before async-only stage `B`,
the chain builder assigns `A` cooperative mode (`true`), while the claim as
stated predicts blocking mode (`false`) for `A` since `A` declares blocking
capability.  The mode decision actually depends on the downstream handler's
mode, which the async-only stage `B` has flipped to cooperative. -/
theorem C4_counterexample :
    (load_middleware false cfgC4).map LoadState.modes =
      .ok [("B", true), ("A", true)] ∧
    c4_claimed_modes cfgC4.reverse = [("B", true), ("A", false)] ∧
    ([("B", true), ("A", true)] : List (String × Bool)) ≠
      [("B", true), ("A", false)] := by
  refine ⟨rfl, rfl, ?_⟩
  decide

/-- C4 (amended): the per-stage mode decisions recorded by the chain builder
are exactly `mode_decision_spec`: a stage runs in blocking mode iff the
handler built so far is blocking and the stage declares blocking capability,
otherwise in the mode of its cooperative capability flag, where the
downstream mode starts as the overall pipeline mode and then tracks each
instantiated stage's chosen mode. -/
theorem C4_stage_mode_decision (is_async : Bool) (cfg : List MWClass)
    (st : LoadState) (h : load_middleware is_async cfg = .ok st) :
    st.modes = mode_decision_spec is_async cfg.reverse := by
  have := load_loop_modes cfg.reverse ⟨[], [], [], [], [], is_async⟩ st h
  simpa using this

theorem C4_witness :
    ∃ st, load_middleware false cfgC4 = .ok st ∧
      st.modes = mode_decision_spec false cfgC4.reverse := by
  have hgood : ∀ mw ∈ cfgC4.reverse, GoodMW mw := by
    have hrev : cfgC4.reverse =
        [plainMW "B" false true, plainMW "A" true true] := rfl
    intro mw hm
    rw [hrev] at hm
    simp at hm
    rcases hm with h | h
    · subst h; exact ⟨Or.inr rfl, rfl, rfl⟩
    · subst h; exact ⟨Or.inl rfl, rfl, rfl⟩
  obtain ⟨st, h1, _⟩ := load_loop_good cfgC4.reverse ⟨[], [], [], [], [], false⟩ hgood
  exact ⟨st, h1, C4_stage_mode_decision false cfgC4 st h1⟩

theorem load_loop_bad :
    ∀ (l : List MWClass) (st : LoadState),
      (∃ mw ∈ l, (mw.sync_capable = false ∧ mw.async_capable = false) ∨
        (mw.returns_none = true ∧ mw.not_used = false)) →
      ∃ e, load_loop st l = .error e := by
  intro l
  induction l with
  | nil =>
    intro st h
    obtain ⟨mw, hm, _⟩ := h
    simp at hm
  | cons mw rest ih =>
    intro st h
    by_cases hflag : (!mw.sync_capable && !mw.async_capable) = true
    · exact ⟨_, by simp only [load_loop]; rw [if_pos hflag]⟩
    · obtain ⟨mw0, hmem, hbad⟩ := h
      rcases List.mem_cons.mp hmem with heq | hmem2
      · subst heq
        rcases hbad with ⟨hs, ha⟩ | ⟨hr, hn⟩
        · exact absurd (by simp [hs, ha]) hflag
        · refine ⟨.improperlyConfigured ("Middleware factory " ++ mw0.path ++
            " returned None."), ?_⟩
          simp only [load_loop]
          rw [if_neg hflag, if_neg (by simp [hn]), if_pos hr]
      · by_cases hnu : mw.not_used = true
        · obtain ⟨e, he⟩ := ih st ⟨mw0, hmem2, hbad⟩
          refine ⟨e, ?_⟩
          simp only [load_loop]
          rw [if_neg hflag, if_pos hnu]
          exact he
        · by_cases hrn : mw.returns_none = true
          · refine ⟨.improperlyConfigured ("Middleware factory " ++ mw.path ++
              " returned None."), ?_⟩
            simp only [load_loop]
            rw [if_neg hflag, if_neg hnu, if_pos hrn]
          · obtain ⟨e, he⟩ := ih _ ⟨mw0, hmem2, hbad⟩
            refine ⟨e, ?_⟩
            simp only [load_loop]
            rw [if_neg hflag, if_neg hnu, if_neg hrn]
            exact he

/-- C8: a stage descriptor with both capability flags false, or a factory
returning no usable instance without signaling `MiddlewareNotUsed`, makes
`load_middleware` fail with a fatal startup error: no pipeline state is
produced. -/
theorem C8_bad_descriptor_fatal (is_async : Bool) (cfg : List MWClass)
    (h : ∃ mw ∈ cfg, (mw.sync_capable = false ∧ mw.async_capable = false) ∨
      (mw.returns_none = true ∧ mw.not_used = false)) :
    ∃ e, load_middleware is_async cfg = .error e := by
  obtain ⟨mw, hmem, hbad⟩ := h
  exact load_loop_bad cfg.reverse ⟨[], [], [], [], [], is_async⟩
    ⟨mw, List.mem_reverse.mpr hmem, hbad⟩

theorem C8_witness :
    (∃ e, load_middleware false cfgC8 = .error e) ∧
    (∃ e, load_middleware false cfgC8b = .error e) := by
  constructor
  · exact C8_bad_descriptor_fatal false cfgC8
      ⟨plainMW "X" false false, by simp [cfgC8], Or.inl ⟨rfl, rfl⟩⟩
  · exact C8_bad_descriptor_fatal false cfgC8b
      ⟨{ plainMW "Y" true false with returns_none := true },
        by simp [cfgC8b], Or.inr ⟨rfl, rfl⟩⟩

/-- C10: `process_exception` hooks are registered in reverse configuration
order (the last-configured stage's hook first), and
`process_exception_by_middleware` returns the first hook's non-empty
response, or `none` when every hook declines. -/
theorem C10_exception_hooks_reverse_order (is_async : Bool)
    (cfg : List MWClass) (st : LoadState)
    (hgood : ∀ mw ∈ cfg, GoodMW mw)
    (hload : load_middleware is_async cfg = .ok st) :
    st.exception_middleware =
      cfg.reverse.filterMap MWClass.process_exception ∧
    (∀ req e front h back r,
      st.exception_middleware = front ++ h :: back →
      (∀ f ∈ front, f req e = .ok none) → h req e = .ok (some r) →
      (process_exception_by_middleware req e st.exception_middleware 0).2 =
        .ok (some r)) ∧
    (∀ req e, (∀ f ∈ st.exception_middleware, f req e = .ok none) →
      (process_exception_by_middleware req e st.exception_middleware 0).2 =
        .ok none) := by
  have hgood' : ∀ mw ∈ cfg.reverse, GoodMW mw :=
    fun mw hm => hgood mw (List.mem_reverse.mp hm)
  obtain ⟨st', h1, _, _, he, _⟩ :=
    load_loop_good cfg.reverse ⟨[], [], [], [], [], is_async⟩ hgood'
  rw [load_middleware] at hload
  rw [h1] at hload
  cases hload
  refine ⟨by simpa using he, ?_, ?_⟩
  · intro req e front h back r hsplit hfront hh
    rw [hsplit]
    exact pexc_first_some hfront hh 0
  · intro req e hall
    exact pexc_all_none hall 0

theorem C10_witness :
    ∃ st, load_middleware false cfgC10 = .ok st ∧
      st.exception_middleware = [eHookSome, eHookNone] ∧
      (process_exception_by_middleware reqW (.other "x")
          st.exception_middleware 0).2 = .ok (some (respPlain 418 "Teapot")) ∧
      (process_exception_by_middleware reqW (.other "x")
          [eHookNone, eHookNone] 0).2 = .ok none := by
  have hgood : ∀ mw ∈ cfgC10, GoodMW mw := by
    intro mw hm
    rw [show cfgC10 =
        [{ plainMW "E1" true false with process_exception := some eHookNone },
         { plainMW "E2" true false with process_exception := some eHookSome }]
      from rfl] at hm
    simp at hm
    rcases hm with h | h <;> subst h <;> exact ⟨Or.inl rfl, rfl, rfl⟩
  obtain ⟨st', h1, _, _, he, _⟩ :=
    load_loop_good cfgC10.reverse ⟨[], [], [], [], [], false⟩
      (fun mw hm => hgood mw (List.mem_reverse.mp hm))
  have hload : load_middleware false cfgC10 = .ok st' := h1
  obtain ⟨hlist, hfirst, hnone⟩ :=
    C10_exception_hooks_reverse_order false cfgC10 st' hgood hload
  have hlist2 : st'.exception_middleware = [eHookSome, eHookNone] := by
    rw [hlist]; rfl
  refine ⟨st', hload, hlist2, ?_, ?_⟩
  · exact hfirst reqW (.other "x") [] eHookSome [eHookNone]
      (respPlain 418 "Teapot") (by rw [hlist2]; rfl)
      (by intro f hf; exact absurd hf (List.not_mem_nil f)) rfl
  · have := hnone reqW (.other "x")
    exact pexc_all_none (by
      intro f hf
      rcases List.mem_cons.mp hf with h | h
      · subst h; rfl
      · rcases List.mem_cons.mp h with h2 | h2
        · subst h2; rfl
        · exact absurd h2 (List.not_mem_nil f)) 0

/-- C2 (counterexample): with stage `A` configured before stage `B`, both
exposing tagging post-render hooks, the dispatch engine produces the tag
order `"BA"` (the last-configured stage's hook ran first), while the claim
as stated (hooks in configuration order, first-configured first) predicts
`"AB"`. -/
theorem C2_counterexample :
    run_c2_actual = some "BA" ∧ run_c2_claimed = some "AB" ∧
      run_c2_actual ≠ run_c2_claimed := by
  refine ⟨rfl, rfl, ?_⟩
  rw [show run_c2_actual = some "BA" from rfl,
    show run_c2_claimed = some "AB" from rfl]
  decide

/-- C2 (amended): post-render (`process_template_response`) hooks are
registered — and hence executed by the dispatch engine — in *reverse*
configuration order, the last-configured stage's hook first; they compose
sequentially, each hook receiving the cumulative output of the hooks run
before it. -/
theorem C2_post_render_hooks_reverse_order (is_async : Bool)
    (cfg : List MWClass) (st : LoadState)
    (hgood : ∀ mw ∈ cfg, GoodMW mw)
    (hload : load_middleware is_async cfg = .ok st) :
    st.template_response_middleware =
      cfg.reverse.filterMap MWClass.process_template_response ∧
    (∀ (req : Request) (r : Response) (l1 l2 : List TemplateHook) (i : Nat),
      (templateLoop req (l1 ++ l2) i r).2 =
        match (templateLoop req l1 i r).2 with
        | .ok r1 => (templateLoop req l2 i r1).2
        | .error e => .error e) := by
  have hgood' : ∀ mw ∈ cfg.reverse, GoodMW mw :=
    fun mw hm => hgood mw (List.mem_reverse.mp hm)
  obtain ⟨st', h1, _, ht, _, _⟩ :=
    load_loop_good cfg.reverse ⟨[], [], [], [], [], is_async⟩ hgood'
  rw [load_middleware] at hload
  rw [h1] at hload
  cases hload
  exact ⟨by simpa using ht, fun req r l1 l2 i => templateLoop_append l1 l2 i r⟩

theorem C2_witness :
    ∃ st, load_middleware false cfgC2 = .ok st ∧
      st.template_response_middleware =
        cfgC2.reverse.filterMap MWClass.process_template_response ∧
      (templateLoop reqW ([tHook "B"] ++ [tHook "A"]) 0 respDeferred).2 =
        match (templateLoop reqW [tHook "B"] 0 respDeferred).2 with
        | .ok r1 => (templateLoop reqW [tHook "A"] 0 r1).2
        | .error e => .error e := by
  have hgood : ∀ mw ∈ cfgC2, GoodMW mw := by
    intro mw hm
    rw [show cfgC2 =
        [{ plainMW "A" true false with
            process_template_response := some (tHook "A") },
         { plainMW "B" true false with
            process_template_response := some (tHook "B") }]
      from rfl] at hm
    simp at hm
    rcases hm with h | h <;> subst h <;> exact ⟨Or.inl rfl, rfl, rfl⟩
  obtain ⟨st', h1, _, ht, _, _⟩ :=
    load_loop_good cfgC2.reverse ⟨[], [], [], [], [], false⟩
      (fun mw hm => hgood mw (List.mem_reverse.mp hm))
  obtain ⟨hlist, happ⟩ :=
    C2_post_render_hooks_reverse_order false cfgC2 st' hgood h1
  exact ⟨st', h1, hlist, happ reqW respDeferred [tHook "B"] [tHook "A"] 0⟩

/-- C5: the first `process_view` hook (in configuration order — the order in
which `load_middleware` registers them) that returns a response
short-circuits dispatch: the later hooks and the view are never invoked, and
that hook's response is the dispatch result. -/
theorem C5_first_view_hook_short_circuits (is_async : Bool)
    (cfg : List MWClass) (st : LoadState) (resolver : Resolver)
    (db : List (String × Bool)) (req : Request) (cb : View)
    (args : List Nat) (vfront vback : List ViewHook) (m : ViewHook)
    (r : Response)
    (hgood : ∀ mw ∈ cfg, GoodMW mw)
    (hload : load_middleware is_async cfg = .ok st)
    (hsplit : cfg.filterMap MWClass.process_view = vfront ++ m :: vback)
    (hres : resolver.resolve req.path_info = .ok (cb, args))
    (hfront : ∀ f ∈ vfront, f req cb args = .ok .none)
    (hm : m req cb args = .ok (.response r))
    (hrender : r.render = none) :
    underscore_get_response (denv_of st resolver db) req =
      ((List.range' 0 (vfront.length + 1)).map Entry.viewMW, .ok r) ∧
    Entry.viewCalled ∉
      ((List.range' 0 (vfront.length + 1)).map Entry.viewMW) ∧
    (∀ j, vfront.length < j →
      Entry.viewMW j ∉
        ((List.range' 0 (vfront.length + 1)).map Entry.viewMW)) := by
  have hgood' : ∀ mw ∈ cfg.reverse, GoodMW mw :=
    fun mw hm2 => hgood mw (List.mem_reverse.mp hm2)
  obtain ⟨st', h1, hv, _, _, _⟩ :=
    load_loop_good cfg.reverse ⟨[], [], [], [], [], is_async⟩ hgood'
  rw [load_middleware] at hload
  rw [h1] at hload
  cases hload
  have hview : st.view_middleware = vfront ++ m :: vback := by
    rw [hv]
    simp [List.filterMap_reverse, hsplit]
  refine ⟨?_, ?_, ?_⟩
  · have hloop := @viewMWLoop_fires req cb args vfront vback m r hfront hm 0
    simp only [underscore_get_response, denv_of, hres, hview, hloop]
    simp [PyResult.truthy, check_response, hrender]
  · simp
  · intro j hj
    simp only [List.mem_map, List.mem_range']
    rintro ⟨k, ⟨i2, hi2, hk⟩, hek⟩
    have : k = j := by
      have := Entry.viewMW.injEq k j ▸ hek
      exact Entry.viewMW.inj hek
    omega

theorem C5_witness :
    ∃ st, load_middleware false cfg5 = .ok st ∧
      underscore_get_response (denv_of st (resolverOf viewOkW) []) reqW =
        ([Entry.viewMW 0, Entry.viewMW 1], .ok (respPlain 201 "Hooked")) := by
  have hgood : ∀ mw ∈ cfg5, GoodMW mw := by
    intro mw hm
    rw [show cfg5 =
        [{ plainMW "MW1" true false with process_view := some hookDecline },
         { plainMW "MW2" true false with process_view := some hookFire }]
      from rfl] at hm
    simp at hm
    rcases hm with h | h <;> subst h <;> exact ⟨Or.inl rfl, rfl, rfl⟩
  obtain ⟨st, h1, _⟩ :=
    load_loop_good cfg5.reverse ⟨[], [], [], [], [], false⟩
      (fun mw hm => hgood mw (List.mem_reverse.mp hm))
  have hmain := C5_first_view_hook_short_circuits false cfg5 st
    (resolverOf viewOkW) [] reqW viewOkW [] [hookDecline] [] hookFire
    (respPlain 201 "Hooked") hgood h1 rfl rfl
    (by intro f hf
        rcases List.mem_cons.mp hf with h | h
        · subst h; rfl
        · exact absurd h (List.not_mem_nil f))
    rfl rfl
  exact ⟨st, h1, by simpa using hmain.1⟩

/-- C6: a coroutine view combined with a database alias that has
`ATOMIC_REQUESTS` enabled and is not excluded by the view makes dispatch
fail with the fatal configuration `RuntimeError` before any response is
produced: the view is never invoked and the on-fault hooks are never
consulted. -/
theorem C6_atomic_async_fatal (denv : DEnv) (req : Request) (cb : View)
    (args : List Nat) (al : String)
    (hres : denv.resolver.resolve req.path_info = .ok (cb, args))
    (hmw : ∀ m ∈ denv.view_middleware, m req cb args = .ok .none)
    (hco : cb.is_coroutine = true)
    (hal : (al, true) ∈ denv.db)
    (hnal : cb.non_atomic_requests.contains al = false) :
    underscore_get_response denv req =
      ((List.range' 0 denv.view_middleware.length).map Entry.viewMW,
        .error (.runtimeError
          "You cannot use ATOMIC_REQUESTS with async views.")) ∧
    Entry.viewCalled ∉
      ((List.range' 0 denv.view_middleware.length).map Entry.viewMW) ∧
    (∀ i, Entry.excMW i ∉
      ((List.range' 0 denv.view_middleware.length).map Entry.viewMW)) := by
  have hma := make_view_atomic_go_coroutine denv.db cb hco ⟨al, hal, hnal⟩
  refine ⟨?_, by simp, by intro i; simp⟩
  have hloop := viewMWLoop_all_none hmw 0
  simp only [underscore_get_response, hres, hloop, make_view_atomic, hma]
  simp

theorem C6_witness :
    underscore_get_response denvAtomic reqW =
      ([], .error (.runtimeError
        "You cannot use ATOMIC_REQUESTS with async views.")) := by
  have hmain := C6_atomic_async_fatal denvAtomic reqW viewAsyncW [] "default"
    rfl (by intro m hm; exact absurd hm (List.not_mem_nil m)) rfl
    (by simp [denvAtomic]) rfl
  simpa using hmain.1

theorem response_for_exception_uncaught_500 {env : Env} (G : GoodEnv env)
    (hprop : env.settings.DEBUG_PROPAGATE_EXCEPTIONS = false)
    (req : Request) (e : Exc) (hk : uncaught_kind e = true) :
    ∃ r, (response_for_exception env req e).2.2 = .ok r ∧
      r.status_code = 500 := by
  obtain ⟨r, hunc, hrend, hst⟩ := handle_uncaught_good G hprop req e
  refine ⟨r, ?_, hst⟩
  cases e <;> simp_all [uncaught_kind] <;>
    simp [response_for_exception, classify_exception, hunc,
      force_render_of_rendered hrend]

theorem goodEnvW : GoodEnv envW := by
  refine ⟨?_, ?_, ?_, ?_⟩
  · intro s
    refine ⟨fun _ _ => .ok (respPlain s "Error"), rfl, ?_⟩
    intro req oe
    exact ⟨respPlain s "Error", rfl, rfl, rfl⟩
  · intro req e; rfl
  · intro req e s; rfl
  · intro req e s; rfl

theorem goodEnvP : GoodEnv envP := by
  refine ⟨?_, ?_, ?_, ?_⟩
  · intro s
    refine ⟨fun _ _ => .ok (respPlain s "Error"), rfl, ?_⟩
    intro req oe
    exact ⟨respPlain s "Error", rfl, rfl, rfl⟩
  · intro req e; rfl
  · intro req e s; rfl
  · intro req e s; rfl

/-- C3 (counterexample): with a view returning `None`, no middleware and the
propagate override off, the caller of `get_response` receives an ordinary
`.ok` response with status 500 — the `InvalidHandlerResult` (`ValueError`)
*is* converted into a response by the outermost fault-containment wrapper,
contradicting the claim that it is surfaced to the caller as a fatal fault
and never converted. -/
theorem C3_counterexample :
    ((get_response (convert_exception_to_response envW
        (dispatch_handler denvNone)) reqW).2.2).toOption.map
      Response.status_code = some 500 := rfl

/-- C3 (amended): a view returning `None` or an unawaited coroutine makes
validation fail with a `ValueError` naming the offending view (with the
message for the respective trigger); the fault leaves the dispatch engine
without consulting any on-fault hook, and the outermost fault-containment
wrapper then treats it like any uncaught fault, converting it into a
500-path response — it reaches the caller raw only when the
`DEBUG_PROPAGATE_EXCEPTIONS` override is active. -/
theorem C3_invalid_result_fault (env : Env) (denv : DEnv) (req : Request)
    (cb : View) (args : List Nat) (pr : PyResult) (G : GoodEnv env)
    (hres : denv.resolver.resolve req.path_info = .ok (cb, args))
    (hmw : ∀ m ∈ denv.view_middleware, m req cb args = .ok .none)
    (hco : cb.is_coroutine = false)
    (hrun : cb.run req args = .ok pr)
    (hbad : pr = PyResult.none ∨ pr = PyResult.coroutine) :
    (underscore_get_response denv req).2 =
      .error (.valueError (default_view_name cb ++
        invalid_result_suffix pr)) ∧
    (∀ i, Entry.excMW i ∉ (underscore_get_response denv req).1) ∧
    (env.settings.DEBUG_PROPAGATE_EXCEPTIONS = false →
      ∃ r, (convert_exception_to_response env
          (dispatch_handler denv) req).2.2 = .ok r ∧ r.status_code = 500) ∧
    (env.settings.DEBUG_PROPAGATE_EXCEPTIONS = true →
      (convert_exception_to_response env (dispatch_handler denv) req).2.2 =
        .error (.valueError (default_view_name cb ++
          invalid_result_suffix pr))) := by
  obtain ⟨v', h1, h2, _, _, _⟩ :=
    @make_view_atomic_go_sync cb.non_atomic_requests denv.db cb hco
  have hloop := viewMWLoop_all_none hmw 0
  have hrun2 : v'.run req args = .ok pr := by rw [h2]; exact hrun
  have hchk : check_response pr (default_view_name cb) =
      .error (.valueError (default_view_name cb ++
        invalid_result_suffix pr)) := by
    rcases hbad with hb | hb <;> subst hb <;> rfl
  have hmain : underscore_get_response denv req =
      ((List.range' 0 denv.view_middleware.length).map Entry.viewMW ++
        [Entry.viewCalled],
        .error (.valueError (default_view_name cb ++
          invalid_result_suffix pr))) := by
    simp only [underscore_get_response, hres, hloop, make_view_atomic, h1,
      hrun2]
    simp [hchk]
  have hdisp : dispatch_handler denv req =
      (req, (List.range' 0 denv.view_middleware.length).map Entry.viewMW ++
        [Entry.viewCalled],
        .error (.valueError (default_view_name cb ++
          invalid_result_suffix pr))) := by
    simp [dispatch_handler, hmain]
  refine ⟨by rw [hmain], ?_, ?_, ?_⟩
  · intro i
    rw [hmain]
    simp
  · intro hprop
    obtain ⟨r, hok, hst⟩ := response_for_exception_uncaught_500 G hprop req
      (.valueError (default_view_name cb ++ invalid_result_suffix pr)) rfl
    rcases hc2 : response_for_exception env req
        (.valueError (default_view_name cb ++ invalid_result_suffix pr))
      with ⟨rq3, es3, res3⟩
    rw [hc2] at hok
    simp at hok
    refine ⟨r, ?_, hst⟩
    simp [convert_exception_to_response, hdisp, hc2, hok]
  · intro hprop
    have hprop2 := response_for_exception_propagate hprop req
      (.valueError (default_view_name cb ++ invalid_result_suffix pr)) rfl
    simp [convert_exception_to_response, hdisp, hprop2]

theorem C3_witness :
    (underscore_get_response denvNone reqW).2 =
      .error (.valueError (default_view_name viewNoneW ++
        invalid_result_suffix PyResult.none)) ∧
    (underscore_get_response denvCoro reqW).2 =
      .error (.valueError (default_view_name viewCoroW ++
        invalid_result_suffix PyResult.coroutine)) ∧
    (∃ r, (convert_exception_to_response envW
        (dispatch_handler denvNone) reqW).2.2 = .ok r ∧
      r.status_code = 500) ∧
    (∃ r, (convert_exception_to_response envW
        (dispatch_handler denvCoro) reqW).2.2 = .ok r ∧
      r.status_code = 500) ∧
    (convert_exception_to_response envP
        (dispatch_handler denvNone) reqW).2.2 =
      .error (.valueError (default_view_name viewNoneW ++
        invalid_result_suffix PyResult.none)) := by
  have hmwN : ∀ m ∈ ([] : List ViewHook), m reqW viewNoneW [] = .ok .none := by
    intro m hm
    exact absurd hm (List.not_mem_nil m)
  have hmwC : ∀ m ∈ ([] : List ViewHook), m reqW viewCoroW [] = .ok .none := by
    intro m hm
    exact absurd hm (List.not_mem_nil m)
  have h1 := C3_invalid_result_fault envW denvNone reqW viewNoneW []
    PyResult.none goodEnvW rfl hmwN rfl rfl (Or.inl rfl)
  have h2 := C3_invalid_result_fault envW denvCoro reqW viewCoroW []
    PyResult.coroutine goodEnvW rfl hmwC rfl rfl (Or.inr rfl)
  have h3 := C3_invalid_result_fault envP denvNone reqW viewNoneW []
    PyResult.none goodEnvP rfl hmwN rfl rfl (Or.inl rfl)
  exact ⟨h1.1, h2.1, h1.2.2.1 rfl, h2.2.2.1 rfl, h3.2.2.2 rfl⟩

/-- C7: for a `SuspiciousOperation` whose subkind is a body/field/file-limit
variant, the classifier marks the request's parsed body unusable, emits
exactly one security-audit log entry on the logger named after the concrete
subkind, and produces a 400 response. -/
theorem C7_suspicious_body_limit (env : Env) (req : Request)
    (sub : SuspiciousSub) (msg : String) (G : GoodEnv env)
    (hsub : sub.isBodyLimit = true) :
    ∃ es r, response_for_exception env req (.suspiciousOperation sub msg) =
      (req.mark_post_parse_error, es, .ok r) ∧
      r.status_code = 400 ∧
      es.filter isSecurityEntry =
        [Entry.securityLog ("django.security." ++ sub.className) msg 400] := by
  by_cases hd : env.settings.DEBUG = true
  · refine ⟨[Entry.securityLog ("django.security." ++ sub.className) msg 400],
      env.technical_500 req.mark_post_parse_error
        (.suspiciousOperation sub msg) 400, ?_, G.t500_status _ _ 400, ?_⟩
    · simp [response_for_exception, classify_exception, hsub, hd,
        force_render_of_rendered (G.t500_rendered _ _ 400)]
    · simp [isSecurityEntry, List.filter]
  · obtain ⟨r, hger, hrend, hst⟩ := get_exception_response_good G
      req.mark_post_parse_error 400 (.suspiciousOperation sub msg)
    refine ⟨[Entry.securityLog ("django.security." ++ sub.className) msg 400],
      r, ?_, hst, ?_⟩
    · simp [response_for_exception, classify_exception, hsub, hd, hger,
        force_render_of_rendered hrend]
    · simp [isSecurityEntry, List.filter]

theorem C7_witness :
    ∃ es r, response_for_exception envW reqW
        (.suspiciousOperation .requestDataTooBig "attack") =
      (reqW.mark_post_parse_error, es, .ok r) ∧
      r.status_code = 400 ∧
      es.filter isSecurityEntry =
        [Entry.securityLog
          ("django.security." ++ SuspiciousSub.className .requestDataTooBig)
          "attack" 400] :=
  C7_suspicious_body_limit envW reqW .requestDataTooBig "attack" goodEnvW rfl

/-- C1: an exception escaping the wrapped handler is converted by
`convert_exception_to_response`, so the caller of
`get_response`/`get_response_async` receives a well-formed response whenever
the `DEBUG_PROPAGATE_EXCEPTIONS` override is off; with the override on, an
exception reaching the uncaught-fault path is re-raised to the caller. -/
theorem C1_exceptions_contained (env : Env) (g : Request → HR)
    (req req2 : Request) (es : List Entry) (e : Exc) (G : GoodEnv env)
    (hg : g req = (req2, es, .error e)) :
    (env.settings.DEBUG_PROPAGATE_EXCEPTIONS = false →
      (∃ r, (get_response (convert_exception_to_response env g) req).2.2 =
        .ok r) ∧
      (∃ r, (get_response_async (convert_exception_to_response env g)
        req).2.2 = .ok r)) ∧
    (env.settings.DEBUG_PROPAGATE_EXCEPTIONS = true →
      uncaught_kind e = true →
      (get_response (convert_exception_to_response env g) req).2.2 =
        .error e) := by
  constructor
  · intro hprop
    obtain ⟨r, hr⟩ := response_for_exception_total G hprop req2 e
    rcases hc : response_for_exception env req2 e with ⟨rq3, es3, res3⟩
    rw [hc] at hr
    simp at hr
    subst hr
    have hcv : convert_exception_to_response env g req =
        (rq3, es ++ es3, .ok r) := by
      simp [convert_exception_to_response, hg, hc]
    constructor
    · refine ⟨r.appendCloser rq3.close_tag, ?_⟩
      by_cases hs : (r.appendCloser rq3.close_tag).status_code ≥ 400 <;>
        simp [get_response, hcv, hs]
    · refine ⟨r.appendCloser rq3.close_tag, ?_⟩
      by_cases hs : (r.appendCloser rq3.close_tag).status_code ≥ 400 <;>
        simp [get_response_async, get_response, hcv, hs]
  · intro hprop hk
    have hc := response_for_exception_propagate hprop req2 e hk
    simp [get_response, convert_exception_to_response, hg, hc]

theorem C1_witness :
    (∃ r, (get_response (convert_exception_to_response envW gBoom)
      reqW).2.2 = .ok r) ∧
    (get_response (convert_exception_to_response envP gBoom) reqW).2.2 =
      .error (.other "boom") :=
  ⟨((C1_exceptions_contained envW gBoom reqW reqW [] (.other "boom")
      goodEnvW rfl).1 rfl).1,
    (C1_exceptions_contained envP gBoom reqW reqW [] (.other "boom")
      goodEnvP rfl).2 rfl rfl⟩

/-- C9: the Pipeline Entry Point appends the request's close callback to the
response's resource-closer list and emits exactly one log line of the form
`"<reason-phrase>: <path>"` when the status is at least 400, and none below
400; the cooperative entry point behaves identically. -/
theorem C9_entry_point_bookkeeping (chain : Request → HR)
    (req req2 : Request) (es : List Entry) (r : Response)
    (h : chain req = (req2, es, .ok r)) :
    get_response chain req =
      (req2,
        es ++ (if r.status_code ≥ 400 then
          [Entry.logResponse (r.reason_phrase ++ ": " ++ req2.path)] else []),
        .ok (r.appendCloser req2.close_tag)) ∧
    get_response_async chain req = get_response chain req ∧
    (r.appendCloser req2.close_tag).resource_closers =
      r.resource_closers ++ [req2.close_tag] := by
  cases r with
  | mk s p c rd b =>
    refine ⟨?_, rfl,
      by simp [Response.appendCloser, Response.resource_closers]⟩
    by_cases hs : s ≥ 400
    · simp [get_response, h, Response.appendCloser, Response.status_code,
        Response.reason_phrase, hs]
    · simp [get_response, h, Response.appendCloser, Response.status_code, hs]

theorem C9_witness :
    get_response (fun rq => (rq, [], .ok (respPlain 500 "ServerError")))
        reqW =
      (reqW, [Entry.logResponse ("ServerError" ++ ": " ++ "/p")],
        .ok (Response.mk 500 "ServerError" [7] none true)) ∧
    get_response (fun rq => (rq, [], .ok (respPlain 200 "OK2"))) reqW =
      (reqW, [], .ok (Response.mk 200 "OK2" [7] none true)) := by
  constructor
  · have := C9_entry_point_bookkeeping
      (fun rq => (rq, [], .ok (respPlain 500 "ServerError"))) reqW reqW []
      (respPlain 500 "ServerError") rfl
    simpa [respPlain, reqW, Response.appendCloser, Response.status_code,
      Response.reason_phrase] using this.1
  · have := C9_entry_point_bookkeeping
      (fun rq => (rq, [], .ok (respPlain 200 "OK2"))) reqW reqW []
      (respPlain 200 "OK2") rfl
    simpa [respPlain, reqW, Response.appendCloser, Response.status_code,
      Response.reason_phrase] using this.1
